import Mathlib

set_option maxRecDepth 8192

/-!
Verification development for the custos_sdk Python client
(src/python/custos_sdk/client.py).  The definitions below are a shallow
embedding of the client: bytes are `List Nat` (each element < 256),
Python strings are Lean `String`s, the SHA-256 call from `hashlib` is the
FIPS 180-4 algorithm written out, and every `await` on the node is an
explicit field of a `NodeBehavior` record together with an entry in a
trace of network calls.
-/

/-- Modulus for 32-bit words (all SHA-256 arithmetic is mod 2^32). -/
def M32 : Nat := 4294967296

/-- Right rotation of a 32-bit word. -/
def rotr32 (n x : Nat) : Nat := ((x >>> n) ||| (x <<< (32 - n))) % M32

/-- SHA-256 Ch function. -/
def ch (x y z : Nat) : Nat := (x &&& y) ^^^ ((x ^^^ 4294967295) &&& z)

/-- SHA-256 Maj function. -/
def maj (x y z : Nat) : Nat := (x &&& y) ^^^ (x &&& z) ^^^ (y &&& z)

/-- SHA-256 big Sigma-0. -/
def bigSigma0 (x : Nat) : Nat := rotr32 2 x ^^^ rotr32 13 x ^^^ rotr32 22 x

/-- SHA-256 big Sigma-1. -/
def bigSigma1 (x : Nat) : Nat := rotr32 6 x ^^^ rotr32 11 x ^^^ rotr32 25 x

/-- SHA-256 small sigma-0. -/
def smallSigma0 (x : Nat) : Nat := rotr32 7 x ^^^ rotr32 18 x ^^^ (x >>> 3)

/-- SHA-256 small sigma-1. -/
def smallSigma1 (x : Nat) : Nat := rotr32 17 x ^^^ rotr32 19 x ^^^ (x >>> 10)

/-- The 64 SHA-256 round constants. -/
def K256 : List Nat :=
  [1116352408, 1899447441, 3049323471, 3921009573, 961987163,
   1508970993, 2453635748, 2870763221, 3624381080, 310598401,
   607225278, 1426881987, 1925078388, 2162078206, 2614888103,
   3248222580, 3835390401, 4022224774, 264347078, 604807628,
   770255983, 1249150122, 1555081692, 1996064986, 2554220882,
   2821834349, 2952996808, 3210313671, 3336571891, 3584528711,
   113926993, 338241895, 666307205, 773529912, 1294757372,
   1396182291, 1695183700, 1986661051, 2177026350, 2456956037,
   2730485921, 2820302411, 3259730800, 3345764771, 3516065817,
   3600352804, 4094571909, 275423344, 430227734, 506948616,
   659060556, 883997877, 958139571, 1322822218, 1537002063,
   1747873779, 1955562222, 2024104815, 2227730452, 2361852424,
   2428436474, 2756734187, 3204031479, 3329325298]

/-- Big-endian 8-byte encoding of a bit length. -/
def be64 (n : Nat) : List Nat :=
  [(n >>> 56) % 256, (n >>> 48) % 256, (n >>> 40) % 256, (n >>> 32) % 256,
   (n >>> 24) % 256, (n >>> 16) % 256, (n >>> 8) % 256, n % 256]

/-- Big-endian 4-byte encoding of a 32-bit word. -/
def be32 (x : Nat) : List Nat :=
  [(x >>> 24) % 256, (x >>> 16) % 256, (x >>> 8) % 256, x % 256]

/-- SHA-256 padding: append 0x80, zero bytes to 56 mod 64, then the
bit length as 8 big-endian bytes. -/
def padMessage (msg : List Nat) : List Nat :=
  let L := msg.length
  let k := (64 + 55 - (L % 64)) % 64
  msg ++ [0x80] ++ List.replicate k 0 ++ be64 (8 * L)

/-- The 16 big-endian words of the i-th 64-byte block of a padded message. -/
def blockWords (padded : List Nat) (i : Nat) : List Nat :=
  (List.range 16).map (fun j =>
    (padded.getD (64 * i + 4 * j) 0) <<< 24 +
    (padded.getD (64 * i + 4 * j + 1) 0) <<< 16 +
    (padded.getD (64 * i + 4 * j + 2) 0) <<< 8 +
    padded.getD (64 * i + 4 * j + 3) 0)

/-- Extend the 16 message words to the 64-entry message schedule. -/
def extendSchedule (w16 : List Nat) : List Nat :=
  (List.range 48).foldl (fun w _ =>
    let i := w.length
    w ++ [(w.getD (i - 16) 0 + smallSigma0 (w.getD (i - 15) 0) +
           w.getD (i - 7) 0 + smallSigma1 (w.getD (i - 2) 0)) % M32]) w16

/-- The 8-word SHA-256 working state. -/
structure Hash8 where
  a : Nat
  b : Nat
  c : Nat
  d : Nat
  e : Nat
  f : Nat
  g : Nat
  h : Nat

/-- One SHA-256 compression round, consuming one (constant, word) pair. -/
def roundStep (st : Hash8) (kw : Nat × Nat) : Hash8 :=
  let t1 := (st.h + bigSigma1 st.e + ch st.e st.f st.g + kw.1 + kw.2) % M32
  let t2 := (bigSigma0 st.a + maj st.a st.b st.c) % M32
  { a := (t1 + t2) % M32, b := st.a, c := st.b, d := st.c,
    e := (st.d + t1) % M32, f := st.e, g := st.f, h := st.g }

/-- Componentwise addition of two hash states mod 2^32. -/
def addState (x y : Hash8) : Hash8 :=
  { a := (x.a + y.a) % M32, b := (x.b + y.b) % M32, c := (x.c + y.c) % M32,
    d := (x.d + y.d) % M32, e := (x.e + y.e) % M32, f := (x.f + y.f) % M32,
    g := (x.g + y.g) % M32, h := (x.h + y.h) % M32 }

/-- Process one 64-byte block: run the 64 rounds and add back the input state. -/
def processBlock (st : Hash8) (w16 : List Nat) : Hash8 :=
  addState st ((K256.zip (extendSchedule w16)).foldl roundStep st)

/-- The SHA-256 initial hash value. -/
def initHash : Hash8 :=
  ⟨1779033703, 3144134277, 1013904242, 2773480762,
   1359893119, 2600822924, 528734635, 1541459225⟩

/-- SHA-256 of a byte list, as the 32-byte big-endian digest.  This embeds
the `hashlib.sha256` call of client.py line 151. -/
def sha256 (msg : List Nat) : List Nat :=
  let padded := padMessage msg
  let fin := (List.range (padded.length / 64)).foldl
    (fun st i => processBlock st (blockWords padded i)) initHash
  be32 fin.a ++ be32 fin.b ++ be32 fin.c ++ be32 fin.d ++
  be32 fin.e ++ be32 fin.f ++ be32 fin.g ++ be32 fin.h

/-- UTF-8 encoding of one character (code point), per RFC 3629. -/
def utf8EncodeChar (c : Char) : List Nat :=
  let n := c.toNat
  if n < 0x80 then [n]
  else if n < 0x800 then
    [0xC0 ||| (n >>> 6), 0x80 ||| (n &&& 0x3F)]
  else if n < 0x10000 then
    [0xE0 ||| (n >>> 12), 0x80 ||| ((n >>> 6) &&& 0x3F), 0x80 ||| (n &&& 0x3F)]
  else
    [0xF0 ||| (n >>> 18), 0x80 ||| ((n >>> 12) &&& 0x3F),
     0x80 ||| ((n >>> 6) &&& 0x3F), 0x80 ||| (n &&& 0x3F)]

/-- UTF-8 encoding of a string: the Python `str.encode()` of client.py
line 151. -/
def utf8Encode (s : String) : List Nat :=
  (s.data.map utf8EncodeChar).flatten

/-- Lowercase hex digit for a value below 16 ('0'..'9', 'a'..'f'). -/
def hexDigitChar (n : Nat) : Char :=
  if n < 10 then Char.ofNat (48 + n) else Char.ofNat (87 + n)

/-- The two lowercase hex digits of one byte, as in Python `bytes.hex()`
and `hexdigest()`. -/
def byteToHexChars (b : Nat) : List Char :=
  [hexDigitChar (b / 16 % 16), hexDigitChar (b % 16)]

/-- Lowercase hex string of a byte list: Python `bytes.hex()`. -/
def bytesHex (bs : List Nat) : String :=
  String.mk (bs.map byteToHexChars).flatten

/-- Value of a hex digit character, upper or lower case; `none` for
anything else. -/
def hexCharVal (c : Char) : Option Nat :=
  if 48 ≤ c.toNat ∧ c.toNat ≤ 57 then some (c.toNat - 48)
  else if 97 ≤ c.toNat ∧ c.toNat ≤ 102 then some (c.toNat - 87)
  else if 65 ≤ c.toNat ∧ c.toNat ≤ 70 then some (c.toNat - 55)
  else none

/-- ASCII whitespace as skipped by CPython `bytes.fromhex` (space, tab,
newline, vertical tab, form feed, carriage return). -/
def isPySpace (c : Char) : Bool := c.toNat = 32 ∨ (9 ≤ c.toNat ∧ c.toNat ≤ 13)

/-- Python `bytes.fromhex`: skips ASCII whitespace between byte pairs,
then requires two adjacent hex digits per byte; `none` models the
`ValueError` raised on any other character or on a dangling digit. -/
def pyFromHex : List Char → Option (List Nat)
  | [] => some []
  | c :: rest =>
    if isPySpace c then pyFromHex rest
    else
      match hexCharVal c with
      | none => none
      | some hi =>
        match rest with
        | [] => none
        | d :: rest2 =>
          match hexCharVal d with
          | none => none
          | some lo =>
            match pyFromHex rest2 with
            | none => none
            | some bs => some ((16 * hi + lo) :: bs)

/-- Python `str.removeprefix("0x")`: drop a leading literal `0x` once. -/
def removePrefix0x (s : List Char) : List Char :=
  if s.take 2 = [Char.ofNat 48, Char.ofNat 120] then s.drop 2 else s

/-- Python `bytes.ljust(width, fill)`: pad on the right up to `width`
(no-op when already at least `width` long). -/
def ljust (bs : List Nat) (width : Nat) (fill : Nat) : List Nat :=
  bs ++ List.replicate (width - bs.length) fill

/-- The content digest of client.py lines 150-152:
`bytes.fromhex(hashlib.sha256(content.encode()).hexdigest())[:32]`. -/
def digestContent (content : String) : List Nat :=
  (((pyFromHex (bytesHex (sha256 (utf8Encode content))).data).getD []).take 32)

/-- The static category mapping BLOCK_TYPE_MAP of client.py lines 29-35. -/
def BLOCK_TYPE_MAP : List (String × Nat) :=
  [("build", 0), ("research", 1), ("market", 2), ("system", 3), ("governance", 4)]

/-!
The transaction pipeline.  Each `await` in client.py is modelled as
reading one field of a `NodeBehavior` record (the simulated node's
response to that RPC) and appending one entry to a trace of network
calls; an exception anywhere is an `Except.error` that propagates.
-/

/-- Errors the client can surface.  The first three are the local,
pre-network faults (`ValueError` on the summary bound, `KeyError` on the
category lookup, `ValueError` from `bytes.fromhex`); the spec groups
them as its ValidationError.  The rest are node-side failures. -/
inductive CustosError
  | summaryTooLong (len : Nat)
  | unknownCategory (name : String)
  | invalidHex
  | submission
  | confirmationTimeout
  | network
deriving DecidableEq

/-- The spec's ValidationError class: local, pre-network input faults. -/
def CustosError.isValidation : CustosError → Bool
  | .summaryTooLong _ => true
  | .unknownCategory _ => true
  | .invalidHex => true
  | _ => false

/-- The arguments of the one contract function each pipeline invokes
(PROXY_ABI, client.py lines 38-71). -/
inductive ContractCall
  | inscribeCycle (blockType : Nat) (summary : String) (contentHash : List Nat)
  | attestProof (agentId : Nat) (proofHash : List Nat) (valid : Bool)
deriving DecidableEq

/-- The transaction envelope built by `build_transaction`: sender,
nonce, gas price and the encoded contract call. -/
structure Tx where
  sender : String
  nonce : Nat
  gasPrice : Nat
  call : ContractCall
deriving DecidableEq

/-- A signed transaction.  Signing (client.py lines 165, 198) is a pure,
local operation; the model keeps the signed payload abstract as the
envelope it signs. -/
structure SignedTx where
  raw_transaction : Tx
deriving DecidableEq

/-- Signing with the held key: pure and local (spec section 4.2 step 2). -/
def signTransaction (tx : Tx) : SignedTx := ⟨tx⟩

/-- A transaction receipt as the pipeline reads it.  `blockNumber` is the
field client.py line 174 uses.  `logProofHash` — Modelled from the spec:
the contract computes a proofHash for every inscription and emits it in
the transaction's event log (the source comment on line 173 calls this
the real value); the client never reads it, so it appears here only so
that statements can compare the result against the chain-computed value. -/
structure Receipt where
  blockNumber : Nat
  logProofHash : List Nat
deriving DecidableEq

/-- The simulated node: one response per RPC the pipeline performs.
`waitForTransactionReceipt` — Modelled from the spec: the confirmation
wait is time-bounded; a node that never reports inclusion within the
bound yields `confirmationTimeout` rather than hanging (spec section 4.2
step 4). -/
structure NodeBehavior where
  transactionCount : Except CustosError Nat
  gasPrice : Except CustosError Nat
  sendRawTransaction : Except CustosError (List Nat)
  waitForTransactionReceipt : Except CustosError Receipt
  totalCycles : Except CustosError Nat

/-- One network interaction, in the order the pipeline performs them. -/
inductive NetCall
  | getTransactionCount
  | getGasPrice
  | sendRaw (signed : SignedTx)
  | waitForReceipt
  | callTotalCycles
deriving DecidableEq

/-- Result of a successful inscribe (client.py lines 78-83). -/
structure InscribeResult where
  tx_hash : String
  proof_hash : String
  cycle_id : Nat
  network_cycle : Nat
deriving DecidableEq

/-- Result of a successful attest (client.py lines 86-88). -/
structure AttestResult where
  tx_hash : String
deriving DecidableEq

/-- The client instance: wallet address and agent id (client.py
lines 120-135; key handling itself is out of scope per the spec). -/
structure Custos where
  address : String
  agent_id : Nat

/-- Hex rendering of a HexBytes value, as web3 returns for transaction
hashes: a lowercase hex string with leading 0x. -/
def hexBytesHex (bs : List Nat) : String := ("0x") ++ bytesHex bs

/-- The inscribe pipeline (client.py lines 139-176): validate the
summary bound, resolve the category, digest the content, then fetch
nonce and gas price, build and sign the call, submit it, wait for the
receipt, read the global counter, and assemble the result.  Returns the
outcome together with the trace of network calls made. -/
def inscribe (self : Custos) (node : NodeBehavior)
    (block summary content : String) :
    Except CustosError InscribeResult × List NetCall :=
  if 140 < summary.length then
    (.error (.summaryTooLong summary.length), [])
  else
    match BLOCK_TYPE_MAP.lookup block with
    | none => (.error (.unknownCategory block), [])
    | some block_type =>
      let content_hash := digestContent content
      match node.transactionCount with
      | .error e => (.error e, [.getTransactionCount])
      | .ok nonce =>
        match node.gasPrice with
        | .error e => (.error e, [.getTransactionCount, .getGasPrice])
        | .ok gas_price =>
          let signed := signTransaction
            ⟨self.address, nonce, gas_price,
             .inscribeCycle block_type summary content_hash⟩
          match node.sendRawTransaction with
          | .error e =>
            (.error e, [.getTransactionCount, .getGasPrice, .sendRaw signed])
          | .ok tx_hash =>
            match node.waitForTransactionReceipt with
            | .error e =>
              (.error e, [.getTransactionCount, .getGasPrice,
                          .sendRaw signed, .waitForReceipt])
            | .ok receipt =>
              match node.totalCycles with
              | .error e =>
                (.error e, [.getTransactionCount, .getGasPrice,
                            .sendRaw signed, .waitForReceipt, .callTotalCycles])
              | .ok network_cycle =>
                (.ok { tx_hash := hexBytesHex tx_hash
                       proof_hash := ("0x") ++ bytesHex content_hash
                       cycle_id := receipt.blockNumber
                       network_cycle := network_cycle },
                 [.getTransactionCount, .getGasPrice,
                  .sendRaw signed, .waitForReceipt, .callTotalCycles])

/-- The attest pipeline (client.py lines 178-202): normalize the proof
identifier to 32 bytes, then fetch nonce and gas price, build and sign
the call, submit it, and wait for the receipt.  No counter read is
performed.  Returns the outcome together with the trace of network
calls made. -/
def attest (self : Custos) (node : NodeBehavior)
    (proof_hash : String) (valid : Bool) :
    Except CustosError AttestResult × List NetCall :=
  match pyFromHex (removePrefix0x proof_hash.data) with
  | none => (.error .invalidHex, [])
  | some ph_bytes =>
    let ph32 := (ljust ph_bytes 32 0).take 32
    match node.transactionCount with
    | .error e => (.error e, [.getTransactionCount])
    | .ok nonce =>
      match node.gasPrice with
      | .error e => (.error e, [.getTransactionCount, .getGasPrice])
      | .ok gas_price =>
        let signed := signTransaction
          ⟨self.address, nonce, gas_price,
           .attestProof self.agent_id ph32 valid⟩
        match node.sendRawTransaction with
        | .error e =>
          (.error e, [.getTransactionCount, .getGasPrice, .sendRaw signed])
        | .ok tx_hash =>
          match node.waitForTransactionReceipt with
          | .error e =>
            (.error e, [.getTransactionCount, .getGasPrice,
                        .sendRaw signed, .waitForReceipt])
          | .ok _receipt =>
            (.ok { tx_hash := hexBytesHex tx_hash },
             [.getTransactionCount, .getGasPrice,
              .sendRaw signed, .waitForReceipt])

/-- Modelled from the spec: `asyncio.run` drives the asynchronous call to
completion on an isolated event loop and returns exactly its final
outcome (spec sections 5 and 9, dual sync/async surface). -/
def asyncioRun {α : Type} (x : α) : α := x

/-- Synchronous wrapper for inscribe (client.py lines 210-212). -/
def inscribe_sync (self : Custos) (node : NodeBehavior)
    (block summary content : String) :
    Except CustosError InscribeResult × List NetCall :=
  asyncioRun (inscribe self node block summary content)

/-- Synchronous wrapper for attest (client.py lines 214-216). -/
def attest_sync (self : Custos) (node : NodeBehavior)
    (proof_hash : String) (valid : Bool) :
    Except CustosError AttestResult × List NetCall :=
  asyncioRun (attest self node proof_hash valid)

/-!
Interleaving model for concurrent inscribe calls from one identity.
asyncio runs on a single thread and can only switch tasks at an `await`;
each constructor transition below is one `await` of inscribe
(client.py lines 154-169), so an interleaving of two calls is a schedule
choosing which call performs its next await.  Only the nonce matters
here, so payloads are elided.
-/

/-- Where one in-flight inscribe call stands, relative to its awaits. -/
inductive CallPhase
  | start
  | gotNonce (nonce : Nat)
  | gotGas (nonce : Nat)
  | submitted (nonce : Nat)
  | confirmed (nonce : Nat)
deriving DecidableEq

/-- The simulated node shared by the two calls: the signer's mined
transaction count (what `get_transaction_count` returns) and the nonces
of all submitted transactions, in submission order.  The simulated node
includes each submitted transaction in a block by the time its
`wait_for_transaction_receipt` returns, which is when the mined count
advances. -/
structure SimNode where
  minedCount : Nat
  submittedNonces : List Nat
deriving DecidableEq

/-- One await of one inscribe call against the shared simulated node:
fetch the nonce (line 154), fetch the gas price (line 155), submit with
the remembered nonce (line 166), and have the receipt wait confirm the
transaction (line 167).  The trailing counter read never touches the
nonce, so a confirmed call steps to itself. -/
def stepCall : CallPhase → SimNode → CallPhase × SimNode
  | .start, s => (.gotNonce s.minedCount, s)
  | .gotNonce n, s => (.gotGas n, s)
  | .gotGas n, s =>
    (.submitted n, { s with submittedNonces := s.submittedNonces ++ [n] })
  | .submitted n, s => (.confirmed n, { s with minedCount := s.minedCount + 1 })
  | .confirmed n, s => (.confirmed n, s)

/-- Two concurrent inscribe calls from the same identity plus the shared
node state. -/
structure TwoCalls where
  first : CallPhase
  second : CallPhase
  node : SimNode
deriving DecidableEq

/-- Advance whichever call the scheduler picks by one await. -/
def stepSched (st : TwoCalls) (pickFirst : Bool) : TwoCalls :=
  if pickFirst then
    let (p, s) := stepCall st.first st.node
    { st with first := p, node := s }
  else
    let (p, s) := stepCall st.second st.node
    { st with second := p, node := s }

/-- Run a schedule: each entry says which of the two calls performs its
next await. -/
def runSched (st : TwoCalls) (sched : List Bool) : TwoCalls :=
  sched.foldl stepSched st

/-- Both calls not yet started, against a node with `c` mined
transactions for this signer. -/
def twoCallsInit (c : Nat) : TwoCalls := ⟨.start, .start, ⟨c, []⟩⟩

/-- The schedule in which both calls fetch their nonce before either
submits — a perfectly legal asyncio interleaving of the two awaits. -/
def overlapSched : List Bool :=
  [true, false, true, true, true, false, false, false]

/-- The schedule in which the first call runs to confirmation before the
second starts. -/
def serialSched : List Bool :=
  [true, true, true, true, false, false, false, false]

/-!
Concrete fixtures used by witnesses and counterexamples: a client
instance, a node double whose every response succeeds, and a node double
whose confirmation wait times out.
-/

/-- A concrete client instance. -/
def exSelf : Custos := ⟨"0x9B5FD0B02355E954F159F33D7886e4198ee777b9", 1⟩

/-- A node double where every RPC succeeds: nonce 5, gas price 10,
transaction hash bytes [17, 34], a receipt in block 7 whose event log
carries the chain-computed proofHash 0xaaaa…aa, and 42 total cycles. -/
def nodeOk : NodeBehavior :=
  { transactionCount := .ok 5
    gasPrice := .ok 10
    sendRawTransaction := .ok [17, 34]
    waitForTransactionReceipt := .ok ⟨7, List.replicate 32 170⟩
    totalCycles := .ok 42 }

/-- A node double that accepts the submission but never reports
inclusion within the bounded wait. -/
def nodeTimeout : NodeBehavior :=
  { transactionCount := .ok 5
    gasPrice := .ok 10
    sendRawTransaction := .ok [17, 34]
    waitForTransactionReceipt := .error .confirmationTimeout
    totalCycles := .ok 42 }

/-- A summary one character over the bound. -/
def longSummary : String := String.mk (List.replicate 141 'x')

/-!
Helper lemmas about the digest and the hex round trip.
-/

/-- Every byte of a SHA-256 digest is below 256. -/
theorem sha256_mem_lt (msg : List Nat) : ∀ y ∈ sha256 msg, y < 256 := by
  intro y hy
  simp only [sha256, be32, List.mem_append, List.mem_cons,
    List.not_mem_nil, or_false] at hy
  rcases hy with ((h|h|h|h)|(h|h|h|h)|(h|h|h|h)|(h|h|h|h))|
    ((h|h|h|h)|(h|h|h|h)|(h|h|h|h)|(h|h|h|h)) <;> omega

/-- A SHA-256 digest is 32 bytes long. -/
theorem sha256_length (msg : List Nat) : (sha256 msg).length = 32 := by
  simp [sha256, be32]

/-- Decoding a hex digit produced by the lowercase encoder recovers the
value. -/
theorem hexCharVal_hexDigitChar {n : Nat} (h : n < 16) :
    hexCharVal (hexDigitChar n) = some n := by
  interval_cases n <;> rfl

/-- Hex digits are not whitespace. -/
theorem isPySpace_hexDigitChar {n : Nat} (h : n < 16) :
    isPySpace (hexDigitChar n) = false := by
  interval_cases n <;> rfl

/-- `bytes.fromhex` inverts the lowercase hex encoder on byte lists. -/
theorem pyFromHex_encode (bs : List Nat) (h : ∀ b ∈ bs, b < 256) :
    pyFromHex (bs.map byteToHexChars).flatten = some bs := by
  induction bs with
  | nil => rfl
  | cons b tl ih =>
    have hb : b < 256 := h b (List.mem_cons_self b tl)
    have htl : ∀ x ∈ tl, x < 256 := fun x hx => h x (List.mem_cons_of_mem _ hx)
    have h1 : b / 16 % 16 < 16 := Nat.mod_lt _ (by norm_num)
    have h2 : b % 16 < 16 := Nat.mod_lt _ (by norm_num)
    simp only [List.map_cons, List.flatten_cons, byteToHexChars, List.cons_append,
      List.nil_append]
    rw [pyFromHex, isPySpace_hexDigitChar h1]
    simp only [Bool.false_eq_true, if_false, hexCharVal_hexDigitChar h1,
      hexCharVal_hexDigitChar h2, ih htl]
    have : 16 * (b / 16 % 16) + b % 16 = b := by omega
    rw [this]

/-- The content digest of the source is exactly the SHA-256 of the
UTF-8 content bytes (the hexdigest/fromhex round trip and the `[:32]`
slice change nothing). -/
theorem digestContent_eq (content : String) :
    digestContent content = sha256 (utf8Encode content) := by
  have h := pyFromHex_encode (sha256 (utf8Encode content)) (sha256_mem_lt _)
  simp only [digestContent, bytesHex, h, Option.getD_some]
  exact List.take_of_length_le (by rw [sha256_length])

/-!
Claim theorems.
-/

/-- C3: for every summary longer than 140 characters, inscribe fails with
the local validation error (the spec's ValidationError) and performs zero
network calls. -/
theorem inscribe_long_summary_fails_no_network (self : Custos)
    (node : NodeBehavior) (block summary content : String)
    (h : 140 < summary.length) :
    inscribe self node block summary content =
      (.error (.summaryTooLong summary.length), []) ∧
    (CustosError.summaryTooLong summary.length).isValidation = true := by
  refine ⟨?_, rfl⟩
  simp [inscribe, h]

/-- Witness for C3: a 141-character summary fails with the validation
error and an empty trace, for any node behaviour instantiated here. -/
theorem inscribe_long_summary_fails_no_network_witness :
    140 < longSummary.length ∧
    (inscribe exSelf nodeOk ("build") longSummary ("c") =
      (.error (.summaryTooLong longSummary.length), []) ∧
    (CustosError.summaryTooLong longSummary.length).isValidation = true) :=
  ⟨by decide, inscribe_long_summary_fails_no_network exSelf nodeOk ("build")
    longSummary ("c") (by decide)⟩

/-- C4: for every category name absent from BLOCK_TYPE_MAP, inscribe
fails with a local validation error (the spec's ValidationError; a
`KeyError` in the source) and performs zero network calls. -/
theorem inscribe_unknown_category_fails_no_network (self : Custos)
    (node : NodeBehavior) (block summary content : String)
    (h : BLOCK_TYPE_MAP.lookup block = none) :
    (∃ e, (inscribe self node block summary content).1 = .error e ∧
      e.isValidation = true) ∧
    (inscribe self node block summary content).2 = [] := by
  by_cases hs : 140 < summary.length
  · exact ⟨⟨.summaryTooLong summary.length, by simp [inscribe, hs], rfl⟩,
      by simp [inscribe, hs]⟩
  · exact ⟨⟨.unknownCategory block, by simp [inscribe, hs, h], rfl⟩,
      by simp [inscribe, hs, h]⟩

/-- Witness for C4: the category name "deploy" is not in the mapping and
inscribe rejects it locally with an empty trace. -/
theorem inscribe_unknown_category_fails_no_network_witness :
    BLOCK_TYPE_MAP.lookup ("deploy") = none ∧
    ((∃ e, (inscribe exSelf nodeOk ("deploy") ("s") ("c")).1 = .error e ∧
      e.isValidation = true) ∧
    (inscribe exSelf nodeOk ("deploy") ("s") ("c")).2 = []) :=
  ⟨by decide, inscribe_unknown_category_fails_no_network exSelf nodeOk
    ("deploy") ("s") ("c") (by decide)⟩

/-- C10: for every proof identifier string that `bytes.fromhex` rejects
after stripping an optional 0x prefix (non-hex characters, a dangling
digit), attest fails locally, before any network interaction. -/
theorem attest_invalid_hex_fails_no_network (self : Custos)
    (node : NodeBehavior) (proof_hash : String) (valid : Bool)
    (h : pyFromHex (removePrefix0x proof_hash.data) = none) :
    attest self node proof_hash valid = (.error .invalidHex, []) ∧
    CustosError.invalidHex.isValidation = true := by
  refine ⟨?_, rfl⟩
  simp [attest, h]

/-- Witness for C10: the string 0xz9 is rejected locally with an empty
trace; so is the odd-length hex string abc. -/
theorem attest_invalid_hex_fails_no_network_witness :
    pyFromHex (removePrefix0x ("0xz9").data) = none ∧
    pyFromHex (removePrefix0x ("abc").data) = none ∧
    attest exSelf nodeOk ("0xz9") true = (.error .invalidHex, []) ∧
    attest exSelf nodeOk ("abc") false = (.error .invalidHex, []) :=
  ⟨by decide, by decide,
   (attest_invalid_hex_fails_no_network exSelf nodeOk ("0xz9") true (by decide)).1,
   (attest_invalid_hex_fails_no_network exSelf nodeOk ("abc") false (by decide)).1⟩

/-- C8: the synchronous wrapper returns exactly the value of the
asynchronous inscribe on the same inputs and node behaviour. -/
theorem inscribe_sync_eq_inscribe (self : Custos) (node : NodeBehavior)
    (block summary content : String) :
    inscribe_sync self node block summary content =
      inscribe self node block summary content := rfl

/-- C7: when the submission goes through but the node never reports
inclusion within the bounded wait, inscribe fails with the confirmation
timeout error — it returns no result, fabricated or otherwise. -/
theorem inscribe_timeout_fails (self : Custos) (node : NodeBehavior)
    (block summary content : String) (bt n g : Nat) (txh : List Nat)
    (hs : summary.length ≤ 140)
    (hb : BLOCK_TYPE_MAP.lookup block = some bt)
    (hn : node.transactionCount = .ok n)
    (hg : node.gasPrice = .ok g)
    (hsr : node.sendRawTransaction = .ok txh)
    (hw : node.waitForTransactionReceipt = .error .confirmationTimeout) :
    inscribe self node block summary content =
      (.error .confirmationTimeout,
       [.getTransactionCount, .getGasPrice,
        .sendRaw (signTransaction ⟨self.address, n, g,
          .inscribeCycle bt summary (digestContent content)⟩),
        .waitForReceipt]) := by
  have hs' : ¬ 140 < summary.length := by omega
  simp [inscribe, hs', hb, hn, hg, hsr, hw]

/-- Witness for C7: against the timing-out node double, inscribe returns
the confirmation timeout error after the four calls up to the wait. -/
theorem inscribe_timeout_fails_witness :
    ("s").length ≤ 140 ∧
    BLOCK_TYPE_MAP.lookup ("research") = some 1 ∧
    nodeTimeout.transactionCount = .ok 5 ∧
    nodeTimeout.gasPrice = .ok 10 ∧
    nodeTimeout.sendRawTransaction = .ok [17, 34] ∧
    nodeTimeout.waitForTransactionReceipt = .error .confirmationTimeout ∧
    inscribe exSelf nodeTimeout ("research") ("s") ("c") =
      (.error .confirmationTimeout,
       [.getTransactionCount, .getGasPrice,
        .sendRaw (signTransaction ⟨exSelf.address, 5, 10,
          .inscribeCycle 1 ("s") (digestContent ("c"))⟩),
        .waitForReceipt]) :=
  ⟨by decide, by decide, rfl, rfl, rfl, rfl,
   inscribe_timeout_fails exSelf nodeTimeout ("research") ("s") ("c") 1 5 10
     [17, 34] (by decide) (by decide) rfl rfl rfl rfl⟩

/-- C2: the attest normalization right-pads short decoded proof
identifiers with zero bytes to 32 bytes, truncates long ones to 32
bytes, and the proofHash argument of the attestProof call the pipeline
signs and submits is always that exact 32-byte value. -/
theorem attest_proof_normalized_to_32_bytes (self : Custos)
    (node : NodeBehavior) (s : String) (valid : Bool) (bs : List Nat)
    (n g : Nat)
    (hdec : pyFromHex (removePrefix0x s.data) = some bs)
    (hn : node.transactionCount = .ok n)
    (hg : node.gasPrice = .ok g) :
    ((ljust bs 32 0).take 32).length = 32 ∧
    (bs.length < 32 →
      (ljust bs 32 0).take 32 = bs ++ List.replicate (32 - bs.length) 0) ∧
    (32 < bs.length → (ljust bs 32 0).take 32 = bs.take 32) ∧
    NetCall.sendRaw (signTransaction ⟨self.address, n, g,
      .attestProof self.agent_id ((ljust bs 32 0).take 32) valid⟩)
      ∈ (attest self node s valid).2 := by
  refine ⟨?_, ?_, ?_, ?_⟩
  · simp only [List.length_take, ljust, List.length_append,
      List.length_replicate]
    omega
  · intro hlt
    apply List.take_of_length_le
    simp only [ljust, List.length_append, List.length_replicate]
    omega
  · intro hgt
    have : 32 - bs.length = 0 := by omega
    simp [ljust, this]
  · cases hsr : node.sendRawTransaction with
    | error e => simp [attest, hdec, hn, hg, hsr]
    | ok txh =>
      cases hw : node.waitForTransactionReceipt with
      | error e => simp [attest, hdec, hn, hg, hsr, hw]
      | ok rc => simp [attest, hdec, hn, hg, hsr, hw]

/-- Witness for C2, exercising the boundary lengths the spec names: a
31-byte identifier is padded with one zero byte, a 33-byte identifier
loses its last byte, and a 32-byte identifier passes through; in each
case the payload submitted to attestProof is the 32-byte form. -/
theorem attest_proof_normalized_to_32_bytes_witness :
    pyFromHex (removePrefix0x (("0x") ++ bytesHex (List.replicate 31 1)).data) =
      some (List.replicate 31 1) ∧
    pyFromHex (removePrefix0x (bytesHex (List.replicate 33 2)).data) =
      some (List.replicate 33 2) ∧
    nodeOk.transactionCount = .ok 5 ∧ nodeOk.gasPrice = .ok 10 ∧
    ((ljust (List.replicate 31 1) 32 0).take 32).length = 32 ∧
    (ljust (List.replicate 31 1) 32 0).take 32 =
      List.replicate 31 1 ++ List.replicate 1 0 ∧
    (ljust (List.replicate 33 2) 32 0).take 32 = List.replicate 32 2 ∧
    (ljust (List.replicate 32 3) 32 0).take 32 = List.replicate 32 3 ∧
    NetCall.sendRaw (signTransaction ⟨exSelf.address, 5, 10,
      .attestProof exSelf.agent_id ((ljust (List.replicate 31 1) 32 0).take 32)
        true⟩)
      ∈ (attest exSelf nodeOk (("0x") ++ bytesHex (List.replicate 31 1)) true).2 :=
  ⟨by decide, by decide, rfl, rfl,
   (attest_proof_normalized_to_32_bytes exSelf nodeOk
      (("0x") ++ bytesHex (List.replicate 31 1)) true (List.replicate 31 1)
      5 10 (by decide) rfl rfl).1,
   by decide, by decide, by decide,
   (attest_proof_normalized_to_32_bytes exSelf nodeOk
      (("0x") ++ bytesHex (List.replicate 31 1)) true (List.replicate 31 1)
      5 10 (by decide) rfl rfl).2.2.2⟩

/-- C9 counterexample: a legal asyncio interleaving in which both
concurrent inscribe calls fetch the nonce before either submits makes
both submit sequence number 5 — the submitted sequence numbers are not
pairwise distinct, so the claim as stated fails. -/
theorem concurrent_inscribe_duplicate_nonce :
    (runSched (twoCallsInit 5) overlapSched).node.submittedNonces = [5, 5] ∧
    ¬ (runSched (twoCallsInit 5) overlapSched).node.submittedNonces.Pairwise
        (fun a b => a ≠ b) := by
  constructor
  · decide
  · decide

/-- C9 amended: the client performs no per-identity serialization, so
distinct submitted sequence numbers are only guaranteed when the two
calls do not overlap: under the serial schedule (first call runs through
confirmation before the second starts) the submitted sequence numbers
are c and c + 1, pairwise distinct, for every starting count c. -/
theorem serialized_inscribe_distinct_nonces (c : Nat) :
    (runSched (twoCallsInit c) serialSched).node.submittedNonces = [c, c + 1] ∧
    (runSched (twoCallsInit c) serialSched).node.submittedNonces.Pairwise
      (fun a b => a ≠ b) := by
  have hrun : (runSched (twoCallsInit c) serialSched).node.submittedNonces =
      [c, c + 1] := by
    simp [runSched, twoCallsInit, serialSched, stepSched, stepCall]
  refine ⟨hrun, ?_⟩
  rw [hrun]
  simp only [List.pairwise_cons, List.mem_singleton, List.mem_cons,
    List.not_mem_nil, or_false]
  refine ⟨?_, ?_, List.Pairwise.nil⟩
  · intro b hb
    subst hb
    omega
  · simp

/-- C6: the content digest is deterministic (equal content bytes give
byte-identical digests), is exactly 32 bytes, and the commitment the
pipeline submits in the inscribeCycle call is `digestContent content` —
a function of the content alone, never of the summary or category. -/
theorem digest_deterministic_fixed_size :
    (∀ c₁ c₂ : String, c₁ = c₂ → digestContent c₁ = digestContent c₂) ∧
    (∀ c : String, (digestContent c).length = 32) ∧
    (∀ (self : Custos) (node : NodeBehavior) (block summary content : String)
        (bt n g : Nat),
        BLOCK_TYPE_MAP.lookup block = some bt →
        summary.length ≤ 140 →
        node.transactionCount = .ok n →
        node.gasPrice = .ok g →
        NetCall.sendRaw (signTransaction ⟨self.address, n, g,
          .inscribeCycle bt summary (digestContent content)⟩)
          ∈ (inscribe self node block summary content).2) := by
  refine ⟨fun c₁ c₂ h => by rw [h], fun c => ?_, ?_⟩
  · rw [digestContent_eq]
    exact sha256_length _
  · intro self node block summary content bt n g hb hs hn hg
    have hs' : ¬ 140 < summary.length := by omega
    cases hsr : node.sendRawTransaction with
    | error e => simp [inscribe, hs', hb, hn, hg, hsr]
    | ok th =>
      cases hw : node.waitForTransactionReceipt with
      | error e => simp [inscribe, hs', hb, hn, hg, hsr, hw]
      | ok rc =>
        cases hc : node.totalCycles with
        | error e => simp [inscribe, hs', hb, hn, hg, hsr, hw, hc]
        | ok cyc => simp [inscribe, hs', hb, hn, hg, hsr, hw, hc]

/-- Witness for C6: at a concrete category, summary and node double, the
submitted commitment is the content digest. -/
theorem digest_deterministic_fixed_size_witness :
    BLOCK_TYPE_MAP.lookup ("market") = some 2 ∧
    ("s").length ≤ 140 ∧
    nodeOk.transactionCount = .ok 5 ∧ nodeOk.gasPrice = .ok 10 ∧
    NetCall.sendRaw (signTransaction ⟨exSelf.address, 5, 10,
      .inscribeCycle 2 ("s") (digestContent ("report"))⟩)
      ∈ (inscribe exSelf nodeOk ("market") ("s") ("report")).2 :=
  ⟨by decide, by decide, rfl, rfl,
   digest_deterministic_fixed_size.2.2 exSelf nodeOk ("market") ("s")
     ("report") 2 5 10 (by decide) (by decide) rfl rfl⟩

/-- C1 amended: the proof identifier in a successful InscribeResult is
the string 0x followed by the hex of the locally recomputed content
digest — the source's acknowledged approximation — not a value read
back from the chain. -/
theorem inscribe_proof_hash_is_local_digest (self : Custos)
    (node : NodeBehavior) (block summary content : String)
    (bt n g : Nat) (txh : List Nat) (rc : Receipt) (cyc : Nat)
    (hs : summary.length ≤ 140)
    (hb : BLOCK_TYPE_MAP.lookup block = some bt)
    (hn : node.transactionCount = .ok n)
    (hg : node.gasPrice = .ok g)
    (hsr : node.sendRawTransaction = .ok txh)
    (hw : node.waitForTransactionReceipt = .ok rc)
    (hc : node.totalCycles = .ok cyc) :
    (inscribe self node block summary content).1 =
      .ok { tx_hash := hexBytesHex txh
            proof_hash := ("0x") ++ bytesHex (digestContent content)
            cycle_id := rc.blockNumber
            network_cycle := cyc } := by
  have hs' : ¬ 140 < summary.length := by omega
  simp [inscribe, hs', hb, hn, hg, hsr, hw, hc]

/-- Witness for the C1 amended theorem at the all-ok node double. -/
theorem inscribe_proof_hash_is_local_digest_witness :
    ("s").length ≤ 140 ∧
    BLOCK_TYPE_MAP.lookup ("research") = some 1 ∧
    nodeOk.transactionCount = .ok 5 ∧
    nodeOk.gasPrice = .ok 10 ∧
    nodeOk.sendRawTransaction = .ok [17, 34] ∧
    nodeOk.waitForTransactionReceipt = .ok ⟨7, List.replicate 32 170⟩ ∧
    nodeOk.totalCycles = .ok 42 ∧
    (inscribe exSelf nodeOk ("research") ("s") ("abc")).1 =
      .ok { tx_hash := hexBytesHex [17, 34]
            proof_hash := ("0x") ++ bytesHex (digestContent ("abc"))
            cycle_id := (7 : Nat)
            network_cycle := 42 } :=
  ⟨by decide, by decide, rfl, rfl, rfl, rfl, rfl,
   inscribe_proof_hash_is_local_digest exSelf nodeOk ("research") ("s")
     ("abc") 1 5 10 [17, 34] ⟨7, List.replicate 32 170⟩ 42
     (by decide) (by decide) rfl rfl rfl rfl rfl⟩

/-- C1 counterexample: with the all-ok node double whose receipt's event
log carries the chain-computed proofHash 0xaaaa…aa, inscribe succeeds,
yet the returned proof identifier is the hex of the local SHA-256 digest
of the content, which differs from the chain-computed value — so the
proof identifier is not derived from the chain. -/
theorem inscribe_proof_hash_not_chain_value :
    (inscribe exSelf nodeOk ("research") ("s") ("abc")).1 =
      .ok { tx_hash := hexBytesHex [17, 34]
            proof_hash := ("0x") ++ bytesHex (digestContent ("abc"))
            cycle_id := (7 : Nat)
            network_cycle := 42 } ∧
    nodeOk.waitForTransactionReceipt =
      .ok ⟨7, List.replicate 32 170⟩ ∧
    ("0x") ++ bytesHex (digestContent ("abc")) ≠
      ("0x") ++ bytesHex (List.replicate 32 170) := by
  refine ⟨rfl, rfl, by decide⟩

/-- C5 amended: a result object is produced only after the full pipeline
has run — for inscribe, an ok result implies the nonce fetch, gas fetch,
submission, confirmation wait and counter read all succeeded, and the
trace contains the wait and the counter read; for attest, an ok result
likewise implies all four of its interactions succeeded and the trace
contains the wait (attest performs no counter read).  Contrapositively,
no error is swallowed: any failing step means no result is returned.
The transaction id, cycle id and network counter conjuncts below record
where those fields come from; the proof identifier is the local digest
(see the C1 correction) and is not constrained here. -/
theorem result_only_after_confirmation_and_reads :
    (∀ (self : Custos) (node : NodeBehavior) (block summary content : String)
        (r : InscribeResult) (t : List NetCall),
        inscribe self node block summary content = (.ok r, t) →
        (∃ n, node.transactionCount = .ok n) ∧
        (∃ g, node.gasPrice = .ok g) ∧
        (∃ th, node.sendRawTransaction = .ok th ∧ r.tx_hash = hexBytesHex th) ∧
        (∃ rc, node.waitForTransactionReceipt = .ok rc ∧
          r.cycle_id = rc.blockNumber) ∧
        node.totalCycles = .ok r.network_cycle ∧
        NetCall.waitForReceipt ∈ t ∧ NetCall.callTotalCycles ∈ t) ∧
    (∀ (self : Custos) (node : NodeBehavior) (ph : String) (v : Bool)
        (r : AttestResult) (t : List NetCall),
        attest self node ph v = (.ok r, t) →
        (∃ n, node.transactionCount = .ok n) ∧
        (∃ g, node.gasPrice = .ok g) ∧
        (∃ th, node.sendRawTransaction = .ok th ∧ r.tx_hash = hexBytesHex th) ∧
        (∃ rc, node.waitForTransactionReceipt = .ok rc) ∧
        NetCall.waitForReceipt ∈ t) := by
  constructor
  · intro self node block summary content r t h
    by_cases hs : 140 < summary.length
    · simp [inscribe, hs] at h
    · cases hb : BLOCK_TYPE_MAP.lookup block with
      | none => simp [inscribe, hs, hb] at h
      | some bt =>
        cases hn : node.transactionCount with
        | error e => simp [inscribe, hs, hb, hn] at h
        | ok n =>
          cases hg : node.gasPrice with
          | error e => simp [inscribe, hs, hb, hn, hg] at h
          | ok g =>
            cases hsr : node.sendRawTransaction with
            | error e => simp [inscribe, hs, hb, hn, hg, hsr] at h
            | ok th =>
              cases hw : node.waitForTransactionReceipt with
              | error e => simp [inscribe, hs, hb, hn, hg, hsr, hw] at h
              | ok rc =>
                cases hc : node.totalCycles with
                | error e => simp [inscribe, hs, hb, hn, hg, hsr, hw, hc] at h
                | ok cyc =>
                  simp only [inscribe, hs, hb, hn, hg, hsr, hw, hc,
                    if_false, Prod.mk.injEq] at h
                  obtain ⟨hr, ht⟩ := h
                  subst ht
                  injection hr with hr2
                  subst hr2
                  exact ⟨⟨n, rfl⟩, ⟨g, rfl⟩, ⟨th, rfl, rfl⟩, ⟨rc, rfl, rfl⟩,
                    rfl, by simp, by simp⟩
  · intro self node ph v r t h
    cases hdec : pyFromHex (removePrefix0x ph.data) with
    | none => simp [attest, hdec] at h
    | some bs =>
      cases hn : node.transactionCount with
      | error e => simp [attest, hdec, hn] at h
      | ok n =>
        cases hg : node.gasPrice with
        | error e => simp [attest, hdec, hn, hg] at h
        | ok g =>
          cases hsr : node.sendRawTransaction with
          | error e => simp [attest, hdec, hn, hg, hsr] at h
          | ok th =>
            cases hw : node.waitForTransactionReceipt with
            | error e => simp [attest, hdec, hn, hg, hsr, hw] at h
            | ok rc =>
              simp only [attest, hdec, hn, hg, hsr, hw,
                Prod.mk.injEq] at h
              obtain ⟨hr, ht⟩ := h
              subst ht
              injection hr with hr2
              subst hr2
              exact ⟨⟨n, rfl⟩, ⟨g, rfl⟩, ⟨th, rfl, rfl⟩, ⟨rc, rfl⟩, by simp⟩

/-- Witness for the C5 amended theorem: a successful inscribe run
against the all-ok node double, with its full five-call trace. -/
theorem result_only_after_confirmation_and_reads_witness :
    inscribe exSelf nodeOk ("build") ("s") ("c") =
      (.ok { tx_hash := hexBytesHex [17, 34]
             proof_hash := ("0x") ++ bytesHex (digestContent ("c"))
             cycle_id := (7 : Nat)
             network_cycle := 42 },
       [.getTransactionCount, .getGasPrice,
        .sendRaw (signTransaction ⟨exSelf.address, 5, 10,
          .inscribeCycle 0 ("s") (digestContent ("c"))⟩),
        .waitForReceipt, .callTotalCycles]) ∧
    ((∃ n, nodeOk.transactionCount = .ok n) ∧
     (∃ g, nodeOk.gasPrice = .ok g) ∧
     (∃ th, nodeOk.sendRawTransaction = .ok th ∧
       hexBytesHex [17, 34] = hexBytesHex th) ∧
     (∃ rc, nodeOk.waitForTransactionReceipt = .ok rc ∧
       (7 : Nat) = rc.blockNumber) ∧
     nodeOk.totalCycles = .ok 42 ∧
     NetCall.waitForReceipt ∈
       [NetCall.getTransactionCount, NetCall.getGasPrice,
        NetCall.sendRaw (signTransaction ⟨exSelf.address, 5, 10,
          .inscribeCycle 0 ("s") (digestContent ("c"))⟩),
        NetCall.waitForReceipt, NetCall.callTotalCycles] ∧
     NetCall.callTotalCycles ∈
       [NetCall.getTransactionCount, NetCall.getGasPrice,
        NetCall.sendRaw (signTransaction ⟨exSelf.address, 5, 10,
          .inscribeCycle 0 ("s") (digestContent ("c"))⟩),
        NetCall.waitForReceipt, NetCall.callTotalCycles]) :=
  ⟨rfl, result_only_after_confirmation_and_reads.1 exSelf nodeOk ("build")
    ("s") ("c") _ _ rfl⟩

/-- C5 counterexample: attest succeeds against the all-ok node double,
yet its trace contains no counter read at all — the claim that both
pipelines produce a result only after a completed post-confirmation
counter read is false for attest, which never performs one. -/
theorem attest_ok_without_counter_read :
    (attest exSelf nodeOk ("0xdeadbeef") true).1 =
      .ok { tx_hash := hexBytesHex [17, 34] } ∧
    NetCall.waitForReceipt ∈ (attest exSelf nodeOk ("0xdeadbeef") true).2 ∧
    NetCall.callTotalCycles ∉ (attest exSelf nodeOk ("0xdeadbeef") true).2 := by
  refine ⟨rfl, by decide, by decide⟩
